import Mathlib

/-!
Verification development for the `lagoon` worker-thread-pool crate.

The embedding is shallow: each Rust item of `src/lib.rs`, `src/recv.rs` and
`src/scope.rs` is translated to a Lean definition. Imperative state (the
one-shot channel backing a `JobHandle`, the scope's atomic pending counter)
becomes explicit state passing or a labelled step relation; fallible code
returns `Except`; blocking operations return an outcome type with an explicit
`blocks` constructor so that non-termination of a call is a value, not an
undefined behaviour.
-/

namespace Lagoon

/-! ## Errors (`src/lib.rs`, `enum Error`)

The crate surfaces three error variants: an IO error from thread spawning
(its payload is modelled as a numeric OS error code), `NoThreads`, and
`Timeout`. Note: the enum has no `Disconnected` variant. -/

inductive Error : Type where
  | Io (code : Nat)
  | NoThreads
  | Timeout
deriving DecidableEq

/-- The constructor name of an `Error`, as printed by the derived `Debug`
implementation of the Rust enum. -/
def Error.name : Error → String
  | .Io _ => "Io"
  | .NoThreads => "NoThreads"
  | .Timeout => "Timeout"

/-! ## One-shot channel (the `oneshot` crate used by `recv.rs`)

State of the one-shot channel backing a `JobHandle`. The sender side lives
inside the submitted job wrapper (`move || { let _ = tx.send(f()); }`): if
the job function returns a value the wrapper sends it; if the job function
panics, the sender is dropped without sending and the channel reports
disconnection to the receiver. -/

inductive OneshotState (T : Type) : Type where
  | empty
  | message (v : T)
  | consumed
  | disconnected
deriving DecidableEq

/-- Non-blocking poll of the receiver (`Receiver::try_recv`): returns the
message exactly once, transitioning the channel to `consumed`; in every
other state it returns nothing and leaves the state unchanged. -/
def OneshotState.try_recv {T : Type} : OneshotState T → Option T × OneshotState T
  | .empty => (none, .empty)
  | .message v => (some v, .consumed)
  | .consumed => (none, .consumed)
  | .disconnected => (none, .disconnected)

/-- Outcome of a blocking receive: a value, an immediate error because the
message can never arrive, or blocking (the sender is still alive and has not
sent yet). -/
inductive RecvOutcome (T : Type) : Type where
  | value (v : T)
  | disconnectedErr
  | blocks
deriving DecidableEq

/-- Blocking receive (`Receiver::recv`): yields the message if present,
errors if the message can never arrive, blocks while the sender is alive
and silent. -/
def OneshotState.recv {T : Type} : OneshotState T → RecvOutcome T
  | .empty => .blocks
  | .message v => .value v
  | .consumed => .disconnectedErr
  | .disconnected => .disconnectedErr

/-! ## `JobHandle` (`src/recv.rs`) -/

/-- `JobHandle { rx: oneshot::Receiver<T>, maybe_recv: RefCell<Option<T>> }`:
the receiving side of the one-shot channel plus the cache slot filled by
`is_completed`. -/
structure JobHandle (T : Type) : Type where
  rx : OneshotState T
  maybe_recv : Option T
deriving DecidableEq

/-- `JobHandle::is_completed(&self) -> bool`: polls the channel; on a value,
stashes it in `maybe_recv` and returns `true`; otherwise returns `false`.
The call mutates interior state through the `RefCell`, so the embedding
returns the updated handle alongside the boolean. -/
def JobHandle.is_completed {T : Type} (h : JobHandle T) : Bool × JobHandle T :=
  match h.rx.try_recv with
  | (some x, rx2) => (true, { rx := rx2, maybe_recv := some x })
  | (none, rx2) => (false, { h with rx := rx2 })

/-- `JobHandle::try_join(self) -> Result<T, Self>`: takes the cached value if
present; otherwise polls the channel, and on failure returns ownership of
the handle itself as the error. -/
def JobHandle.try_join {T : Type} (h : JobHandle T) : Except (JobHandle T) T :=
  match h.maybe_recv with
  | some x => .ok x
  | none =>
    match h.rx.try_recv with
    | (some x, _) => .ok x
    | (none, rx2) => .error { rx := rx2, maybe_recv := none }

/-- Outcome of `JobHandle::join`: the value, an `Error`, or blocking. -/
inductive JoinOutcome (T : Type) : Type where
  | ok (v : T)
  | err (e : Error)
  | blocks
deriving DecidableEq

/-- `JobHandle::join(self) -> Result<T, Error>`: takes the cached value if
present; otherwise performs a blocking receive, mapping a receive error to
`Error::Timeout` (`self.rx.recv().map_err(|_| Error::Timeout)`). -/
def JobHandle.join {T : Type} (h : JobHandle T) : JoinOutcome T :=
  match h.maybe_recv with
  | some x => .ok x
  | none =>
    match h.rx.recv with
    | .value v => .ok v
    | .disconnectedErr => .err Error.Timeout
    | .blocks => .blocks

/-- Retry loop over `try_join`: call `try_join`, and on getting the handle
back, retry with it, up to `n` attempts; `n = 0` gives the handle back. -/
def tryJoinIter {T : Type} : Nat → JobHandle T → Except (JobHandle T) T
  | 0, h => .error h
  | n + 1, h =>
    match h.try_join with
    | .ok v => .ok v
    | .error h2 => tryJoinIter n h2

/-! ## Pool construction (`src/lib.rs`)

External inputs of `ThreadPoolBuilder::finish` are gathered in an
environment: the detected concurrency (`available_concurrency()` may fail),
and the outcome of each call to `thread::Builder::spawn` (indexed by the
order of the spawn attempts; an error is modelled by its OS error code, a
success by an opaque thread-handle identifier). -/

structure Env : Type where
  available_concurrency : Option Nat
  spawn : Nat → Except Nat Nat

/-- `ThreadPoolBuilder { thread_count, thread_name, thread_stack_size }`. -/
structure ThreadPoolBuilder : Type where
  thread_count : Option Nat := none
  thread_name : Option String := none
  thread_stack_size : Option Nat := none
deriving DecidableEq

/-- `ThreadPoolBuilder::default()`. -/
def ThreadPoolBuilder.default : ThreadPoolBuilder := {}

/-- `ThreadPoolBuilder::with_thread_count`. -/
def ThreadPoolBuilder.with_thread_count (b : ThreadPoolBuilder) (n : Nat) :
    ThreadPoolBuilder :=
  { b with thread_count := some n }

/-- `ThreadPool::DEFAULT_THREAD_COUNT`. -/
def DEFAULT_THREAD_COUNT : Nat := 8

/-- The thread count resolved at the top of `ThreadPoolBuilder::finish`:
`self.thread_count.or_else(available_concurrency).unwrap_or(DEFAULT_THREAD_COUNT)`. -/
def resolvedThreadCount (env : Env) (b : ThreadPoolBuilder) : Nat :=
  (b.thread_count.or env.available_concurrency).getD DEFAULT_THREAD_COUNT

/-- `ThreadPool { tx: Sender<Job>, handles: Vec<JoinHandle<()>> }`. The queue
sender is not itself inspected by any property below, so only the handles
vector is carried. -/
structure ThreadPool : Type where
  handles : List Nat
deriving DecidableEq

/-- `ThreadPool::thread_count(&self) -> usize` is `self.handles.len()`. -/
def ThreadPool.thread_count (p : ThreadPool) : Nat := p.handles.length

/-- The spawn loop of `finish`: `(0..thread_count).map(|_| builder.spawn(..))
.collect::<Result<_, _>>()`, which short-circuits at the first failed spawn.
`i` is the index of the next spawn attempt and `n` the number of attempts
remaining; the second component counts how many spawn attempts were made. -/
def spawnLoop (spawn : Nat → Except Nat Nat) : Nat → Nat → Except Nat (List Nat) × Nat
  | _, 0 => (.ok [], 0)
  | i, n + 1 =>
    match spawn i with
    | .error e => (.error e, 1)
    | .ok h =>
      match spawnLoop spawn (i + 1) n with
      | (.ok hs, k) => (.ok (h :: hs), k + 1)
      | (.error e, k) => (.error e, k + 1)

/-- `ThreadPoolBuilder::finish(self) -> Result<ThreadPool, Error>`: resolve
the thread count, reject zero with `NoThreads` before any spawn, then spawn
the workers, wrapping a spawn failure as `Error::Io`. The second component
of the result counts the spawn attempts performed. -/
def ThreadPoolBuilder.finish (env : Env) (b : ThreadPoolBuilder) :
    Except Error ThreadPool × Nat :=
  let tc := resolvedThreadCount env b
  if tc = 0 then (.error Error.NoThreads, 0)
  else
    match spawnLoop env.spawn 0 tc with
    | (.ok hs, k) => (.ok ⟨hs⟩, k)
    | (.error e, k) => (.error (Error.Io e), k)

/-- Whether a `finish` outcome is an `Io` spawn error. -/
def isIoError : Except Error ThreadPool → Bool
  | .error (.Io _) => true
  | _ => false

/-! ## Global pool singleton (`src/lib.rs`)

`static GLOBAL: spin::once::Once<ThreadPool, spin::Yield>` together with
`ThreadPool::global_with_builder`, which runs
`GLOBAL.call_once(|| builder.finish().expect(..))`. The cell's state is an
`Option ThreadPool`; `call_once` runs its closure only when the cell is
still empty, and every call returns the stored value. The `expect` panic on
a failed `finish` is modelled as `none`. -/

def global_with_builder (env : Env) (b : ThreadPoolBuilder)
    (cell : Option ThreadPool) : Option (ThreadPool × Option ThreadPool) :=
  match cell with
  | some p => some (p, some p)
  | none =>
    match (ThreadPoolBuilder.finish env b).1 with
    | .ok p => some (p, some p)
    | .error _ => none

/-- `ThreadPool::global()` is `global_with_builder` at the default builder. -/
def global (env : Env) (cell : Option ThreadPool) :
    Option (ThreadPool × Option ThreadPool) :=
  global_with_builder env ThreadPoolBuilder.default cell

/-! ## Scope (`src/scope.rs`)

Two complementary embeddings.

The first is syntactic: the bodies of `Scope::run`, of the wrapper closure
it submits to the pool, and of the scope guard installed by `scope::run`
are flattened into traces of primitive actions, in program order, so that
ordering claims (counter increment before submission, cleanup on every exit
path, unpark last) are statements about lists.

The second is semantic: a labelled step relation over the shared scope
state `(pending counter, body finished?, scope returned?)` whose steps are
exactly the operations the source performs on that state, used for the
temporal claim that the scope construct cannot return while tasks are
outstanding. -/

inductive MemOrder : Type where
  | Acquire
  | Release
  | SeqCst
deriving DecidableEq

inductive Action : Type where
  | fetchAdd (n : Nat) (o : MemOrder)
  | fetchSub (n : Nat) (o : MemOrder)
  | submit
  | taskBody (ok : Bool)
  | unpark
  | load (o : MemOrder)
  | park
deriving DecidableEq

/-- Program-order trace of `Scope::run` on the calling thread:
`parent.1.fetch_add(1, Ordering::Acquire)` and then `self.pool.run(..)`
handing the wrapped task to the queue. -/
def scopeRunTrace : List Action :=
  [.fetchAdd 1 .Acquire, .submit]

/-- Program-order trace of the wrapped task executed by a worker: the user
function runs (`ok` records whether it returned normally or panicked), and
the `scopeguard` installed before it runs its cleanup on either exit path —
`parent.1.fetch_sub(1, Ordering::Release)` then `parent.0.unpark()`. -/
def wrapperTrace (ok : Bool) : List Action :=
  [.taskBody ok, .fetchSub 1 .Release, .unpark]

/-- Program-order trace of one iteration of the wait loop in the guard of
`scope::run`: `while this.1.load(Ordering::SeqCst) > 0 { thread::park(); }`. -/
def scopeWaitIterTrace : List Action :=
  [.load .SeqCst, .park]

/-- Shared scope state: the atomic pending counter, whether the scope body
has returned (setting the result), and whether `scope::run` itself has
returned that result to its caller. -/
structure ScopeState : Type where
  pending : Nat
  bodyDone : Bool
  returned : Bool
  result : Option Nat
deriving DecidableEq

/-- Steps of the scope life cycle, for a scope whose body returns
`bodyResult`:
`spawn` is `Scope::run` incrementing the pending counter and submitting
(only possible while the body runs);
`finishBody` is the body returning its result;
`taskDone` is a worker finishing a wrapped task, whose guard decrements the
counter;
`ret` is the guard of `scope::run` observing a zero counter after the body
finished, letting `scope::run` return the body's result. -/
inductive ScopeStep (bodyResult : Nat) : ScopeState → ScopeState → Prop where
  | spawn (p : Nat) :
      ScopeStep bodyResult ⟨p, false, false, none⟩ ⟨p + 1, false, false, none⟩
  | finishBody (p : Nat) :
      ScopeStep bodyResult ⟨p, false, false, none⟩ ⟨p, true, false, some bodyResult⟩
  | taskDone (p : Nat) (bd : Bool) (r : Option Nat) :
      ScopeStep bodyResult ⟨p + 1, bd, false, r⟩ ⟨p, bd, false, r⟩
  | ret :
      ScopeStep bodyResult ⟨0, true, false, some bodyResult⟩
        ⟨0, true, true, some bodyResult⟩

/-- States reachable from the initial scope state (counter zero, body
running): `scope::run` creates `Arc::new((thread::current(), AtomicUsize::new(0)))`. -/
inductive ScopeReach (bodyResult : Nat) : ScopeState → Prop where
  | init : ScopeReach bodyResult ⟨0, false, false, none⟩
  | step {s s' : ScopeState} :
      ScopeReach bodyResult s → ScopeStep bodyResult s s' → ScopeReach bodyResult s'

/-! ## Helper lemmas -/

theorem spawnLoop_ok_length (spawn : Nat → Except Nat Nat) :
    ∀ n i hs k, spawnLoop spawn i n = (.ok hs, k) → hs.length = n := by
  intro n
  induction n with
  | zero =>
    intro i hs k h
    simp only [spawnLoop] at h
    cases h
    rfl
  | succ m ih =>
    intro i hs k h
    simp only [spawnLoop] at h
    cases hsp : spawn i with
    | error e => rw [hsp] at h; cases h
    | ok hd =>
      rw [hsp] at h
      cases hrec : spawnLoop spawn (i + 1) m with
      | mk res k2 =>
        cases res with
        | ok tl =>
          rw [hrec] at h
          cases h
          simpa using ih (i + 1) tl k2 hrec
        | error e => rw [hrec] at h; cases h

theorem spawnLoop_error_of_fail (spawn : Nat → Except Nat Nat) :
    ∀ n i, (∃ j, j < n ∧ ∃ e, spawn (i + j) = .error e) →
      ∃ e, (spawnLoop spawn i n).1 = .error e ∧ ∃ j, j < n ∧ spawn (i + j) = .error e := by
  intro n
  induction n with
  | zero =>
    intro i hfail
    obtain ⟨j, hj, _⟩ := hfail
    omega
  | succ m ih =>
    intro i hfail
    cases hsp : spawn i with
    | error e =>
      refine ⟨e, ?_, 0, by omega, by simpa using hsp⟩
      simp only [spawnLoop, hsp]
    | ok hd =>
      have hfail2 : ∃ j, j < m ∧ ∃ e, spawn (i + 1 + j) = .error e := by
        obtain ⟨j, hj, e, he⟩ := hfail
        cases j with
        | zero =>
          simp only [Nat.add_zero] at he
          rw [hsp] at he
          cases he
        | succ j2 =>
          refine ⟨j2, by omega, e, ?_⟩
          have : i + 1 + j2 = i + (j2 + 1) := by omega
          rw [this]
          exact he
      obtain ⟨e, herr, j2, hj2, hspj⟩ := ih (i + 1) hfail2
      refine ⟨e, ?_, j2 + 1, by omega, ?_⟩
      · simp only [spawnLoop, hsp]
        cases hrec : spawnLoop spawn (i + 1) m with
        | mk res k2 =>
          cases res with
          | ok tl => rw [hrec] at herr; cases herr
          | error e2 =>
            rw [hrec] at herr
            cases herr
            rfl
      · have : i + (j2 + 1) = i + 1 + j2 := by omega
        rw [this]
        exact hspj

theorem finish_ok_thread_count (env : Env) (b : ThreadPoolBuilder) (p : ThreadPool)
    (h : (ThreadPoolBuilder.finish env b).1 = .ok p) :
    p.thread_count = resolvedThreadCount env b := by
  unfold ThreadPoolBuilder.finish at h
  by_cases htc : resolvedThreadCount env b = 0
  · simp only [htc, if_pos rfl] at h
    cases h
  · simp only [if_neg htc] at h
    cases hrec : spawnLoop env.spawn 0 (resolvedThreadCount env b) with
    | mk res k =>
      cases res with
      | ok hs =>
        rw [hrec] at h
        simp only at h
        cases h
        exact spawnLoop_ok_length env.spawn (resolvedThreadCount env b) 0 hs k hrec
      | error e =>
        rw [hrec] at h
        cases h

/-! ## Claim theorems -/

/-- Claim C1, counterexample: at the concrete handle of a failed producer
(channel disconnected, nothing cached), `join` yields the error variant
named `Timeout`, not one named `Disconnected` — the crate's `Error` enum
maps a one-shot receive failure to `Error::Timeout` and has no
`Disconnected` variant at all. -/
theorem join_failure_not_named_disconnected :
    JobHandle.join (⟨OneshotState.disconnected, none⟩ : JobHandle Nat) =
      JoinOutcome.err Error.Timeout
    ∧ Error.name Error.Timeout = "Timeout"
    ∧ ("Timeout" : String) ≠ "Disconnected" := by
  refine ⟨rfl, rfl, ?_⟩
  decide

/-- Claim C1, amended: if the function passed to a result-bearing submission
fails instead of returning (so its one-shot sender is dropped without
sending and the channel is disconnected) and no value was cached, `join`
returns the error `Timeout` — the single error kind the code produces for a
vanished producer — and in particular does not block. -/
theorem join_after_producer_failure (T : Type) (h : JobHandle T)
    (hc : h.maybe_recv = none) (hd : h.rx = OneshotState.disconnected) :
    h.join = JoinOutcome.err Error.Timeout ∧ h.join ≠ JoinOutcome.blocks := by
  obtain ⟨rx, mr⟩ := h
  simp only at hc hd
  subst hc hd
  exact ⟨rfl, by simp [JobHandle.join, OneshotState.recv]⟩

/-- Witness for `join_after_producer_failure` at a concrete handle. -/
theorem join_after_producer_failure_witness :
    JobHandle.join (⟨OneshotState.disconnected, none⟩ : JobHandle Nat) =
      JoinOutcome.err Error.Timeout :=
  (join_after_producer_failure Nat ⟨OneshotState.disconnected, none⟩ rfl rfl).1

/-- Claim C2: divergence of the code from the claim, evaluated at the
failing input. After a first `is_completed` observes and caches the value
`42` (moving the channel to `consumed`), a second `is_completed` polls the
now-consumed channel, gets an error, and reports `false` — although the
cached value is still there and `try_join` and `join` both return `42`
without blocking, exactly as the method's own documentation promises. -/
theorem is_completed_after_cache_divergence :
    JobHandle.is_completed (⟨OneshotState.message 42, none⟩ : JobHandle Nat) =
      (true, ⟨OneshotState.consumed, some 42⟩)
    ∧ (JobHandle.is_completed (⟨OneshotState.consumed, some 42⟩ : JobHandle Nat)).1 = false
    ∧ JobHandle.try_join (⟨OneshotState.consumed, some 42⟩ : JobHandle Nat) = Except.ok 42
    ∧ JobHandle.join (⟨OneshotState.consumed, some 42⟩ : JobHandle Nat) = JoinOutcome.ok 42 := by
  exact ⟨rfl, rfl, rfl, rfl⟩

/-- Claim C7: `try_join` never blocks — on every handle it immediately
returns either a value, or ownership of the very same handle unchanged so
the caller can retry — and whenever a value was already cached by
`is_completed`, it returns that cached value. -/
theorem try_join_no_block_and_unchanged (T : Type) (h : JobHandle T) :
    (∀ v, h.maybe_recv = some v → h.try_join = Except.ok v)
    ∧ ((∃ v, h.try_join = Except.ok v) ∨ h.try_join = Except.error h) := by
  obtain ⟨rx, mr⟩ := h
  constructor
  · intro v hv
    simp only at hv
    subst hv
    rfl
  · cases mr with
    | some v => exact Or.inl ⟨v, rfl⟩
    | none =>
      cases rx with
      | empty => exact Or.inr rfl
      | message v => exact Or.inl ⟨v, rfl⟩
      | consumed => exact Or.inr rfl
      | disconnected => exact Or.inr rfl

/-- Witness for `try_join_no_block_and_unchanged`: a cached value is
returned. -/
theorem try_join_no_block_and_unchanged_witness :
    JobHandle.try_join (⟨OneshotState.empty, some 5⟩ : JobHandle Nat) = Except.ok 5 :=
  (try_join_no_block_and_unchanged Nat ⟨OneshotState.empty, some 5⟩).1 5 rfl

/-- Claim C10: when the producing task failed (channel disconnected) and
nothing was cached, `try_join` returns the handle itself — the identical
outcome a still-pending handle produces — so a caller polling with
`try_join` cannot tell a failed job from a pending one, and a retry loop on
a failed job never succeeds, at any number of retries. -/
theorem try_join_indistinguishable_failure (T : Type) (h hp : JobHandle T)
    (hc : h.maybe_recv = none) (hd : h.rx = OneshotState.disconnected)
    (hpc : hp.maybe_recv = none) (hpe : hp.rx = OneshotState.empty) :
    h.try_join = Except.error h
    ∧ hp.try_join = Except.error hp
    ∧ ∀ n, tryJoinIter n h = Except.error h := by
  obtain ⟨rx, mr⟩ := h
  obtain ⟨rxp, mrp⟩ := hp
  simp only at hc hd hpc hpe
  subst hc hd hpc hpe
  refine ⟨rfl, rfl, ?_⟩
  intro n
  induction n with
  | zero => rfl
  | succ m ih =>
    simp only [tryJoinIter]
    exact ih

/-- Witness for `try_join_indistinguishable_failure`: three retries on the
handle of a failed job still hand the same handle back. -/
theorem try_join_indistinguishable_failure_witness :
    tryJoinIter 3 (⟨OneshotState.disconnected, none⟩ : JobHandle Nat) =
      Except.error ⟨OneshotState.disconnected, none⟩ :=
  (try_join_indistinguishable_failure Nat ⟨OneshotState.disconnected, none⟩
    ⟨OneshotState.empty, none⟩ rfl rfl rfl rfl).2.2 3

/-- Claim C3: in every state reachable in the scope life cycle, if
`scope::run` has returned control to its caller, then the pending count is
zero, the body has finished, and the value returned is the body's result;
moreover each iteration of the wait the guard performs while the count is
nonzero loads the counter and parks the thread (no busy spin). -/
theorem scope_never_returns_with_pending (r : Nat) (s : ScopeState)
    (hreach : ScopeReach r s) (hret : s.returned = true) :
    s.pending = 0 ∧ s.bodyDone = true ∧ s.result = some r
    ∧ scopeWaitIterTrace = [Action.load MemOrder.SeqCst, Action.park] := by
  induction hreach with
  | init => cases hret
  | step hprev hstep ih =>
    cases hstep with
    | spawn p => cases hret
    | finishBody p => cases hret
    | taskDone p bd rr => cases hret
    | ret => exact ⟨rfl, rfl, rfl, rfl⟩

/-- Witness for `scope_never_returns_with_pending`: a concrete run that
spawns one task, finishes the body with result `7`, sees the task complete,
and only then returns. -/
theorem scope_never_returns_with_pending_witness :
    (⟨0, true, true, some 7⟩ : ScopeState).pending = 0
    ∧ (⟨0, true, true, some 7⟩ : ScopeState).bodyDone = true
    ∧ (⟨0, true, true, some 7⟩ : ScopeState).result = some 7
    ∧ scopeWaitIterTrace = [Action.load MemOrder.SeqCst, Action.park] :=
  scope_never_returns_with_pending 7 ⟨0, true, true, some 7⟩
    (ScopeReach.step
      (ScopeReach.step
        (ScopeReach.step
          (ScopeReach.step ScopeReach.init (ScopeStep.spawn 0))
          (ScopeStep.finishBody 1))
        (ScopeStep.taskDone 0 true (some 7)))
      ScopeStep.ret)
    rfl

/-- Claim C4: in the program-order trace of `Scope::run`, the pending-count
increment (`fetch_add(1, Acquire)`) strictly precedes the submission of the
task to the pool; and the wrapper's trace, on both exit paths of the user
function (normal return and panic), ends with the pending-count decrement
(`fetch_sub(1, Release)`) followed by `unpark` as its final action. -/
theorem scope_run_increment_before_submit :
    (∃ i j, i < j
      ∧ scopeRunTrace.get? i = some (Action.fetchAdd 1 MemOrder.Acquire)
      ∧ scopeRunTrace.get? j = some Action.submit)
    ∧ (∀ ok : Bool, ∃ pre,
        wrapperTrace ok = pre ++ [Action.fetchSub 1 MemOrder.Release, Action.unpark])
    ∧ (∀ ok : Bool, (wrapperTrace ok).getLast? = some Action.unpark) := by
  refine ⟨⟨0, 1, ?_, rfl, rfl⟩, ?_, ?_⟩
  · decide
  · intro ok
    exact ⟨[Action.taskBody ok], rfl⟩
  · intro ok
    rfl

/-- Claim C5: the global pool is first-caller-wins. If the first access
initializes the cell with builder `X` (successfully constructing `pX`),
then any later access — with any other builder `Y` and any environment —
returns the already-initialized `pX` and leaves the cell unchanged, and the
pool's `thread_count` stays fixed at `X`'s resolved thread count. -/
theorem global_first_caller_wins (env env2 : Env) (X Y : ThreadPoolBuilder)
    (pX : ThreadPool) (hX : (ThreadPoolBuilder.finish env X).1 = Except.ok pX) :
    global_with_builder env X none = some (pX, some pX)
    ∧ global_with_builder env2 Y (some pX) = some (pX, some pX)
    ∧ ∀ q st, global_with_builder env2 Y (some pX) = some (q, st) →
        q.thread_count = resolvedThreadCount env X := by
  refine ⟨?_, rfl, ?_⟩
  · simp only [global_with_builder, hX]
  · intro q st hq
    simp only [global_with_builder, Option.some_inj, Prod.mk.injEq] at hq
    rw [← hq.1]
    exact finish_ok_thread_count env X pX hX

/-- Witness for `global_first_caller_wins`: a second access with a
different thread-count configuration returns the pool built by the first
access unchanged. -/
theorem global_first_caller_wins_witness :
    global_with_builder ⟨some 2, fun i => Except.ok i⟩
      (ThreadPoolBuilder.with_thread_count ThreadPoolBuilder.default 5)
      (some ⟨[0, 1]⟩) = some (⟨[0, 1]⟩, some ⟨[0, 1]⟩) :=
  (global_first_caller_wins ⟨some 2, fun i => Except.ok i⟩
    ⟨some 2, fun i => Except.ok i⟩ ThreadPoolBuilder.default
    (ThreadPoolBuilder.with_thread_count ThreadPoolBuilder.default 5)
    ⟨[0, 1]⟩ rfl).2.1

/-- Claim C6: whenever the resolved thread count is zero, `finish` fails
with `NoThreads` and performs zero spawn attempts — the rejection happens
before any worker thread is created. -/
theorem finish_zero_threads (env : Env) (b : ThreadPoolBuilder)
    (h : resolvedThreadCount env b = 0) :
    ThreadPoolBuilder.finish env b = (Except.error Error.NoThreads, 0) := by
  simp only [ThreadPoolBuilder.finish, h, if_pos]

/-- Witness for `finish_zero_threads`: an explicitly configured thread
count of `0` is rejected with no spawn attempt. -/
theorem finish_zero_threads_witness :
    ThreadPoolBuilder.finish ⟨some 4, fun i => Except.ok i⟩
      (ThreadPoolBuilder.with_thread_count ThreadPoolBuilder.default 0) =
      (Except.error Error.NoThreads, 0) :=
  finish_zero_threads ⟨some 4, fun i => Except.ok i⟩
    (ThreadPoolBuilder.with_thread_count ThreadPoolBuilder.default 0) rfl

/-- Claim C8: pool construction is all-or-nothing. If any spawn among the
resolved number of workers fails, `finish` returns an `Io` error wrapping
an underlying OS error that some failing spawn produced, and no pool —
partially spawned or otherwise — is returned to the caller. -/
theorem finish_all_or_nothing (env : Env) (b : ThreadPoolBuilder)
    (hfail : ∃ j, j < resolvedThreadCount env b ∧ ∃ e, env.spawn j = Except.error e) :
    isIoError (ThreadPoolBuilder.finish env b).1 = true
    ∧ (∃ e, (ThreadPoolBuilder.finish env b).1 = Except.error (Error.Io e)
        ∧ ∃ j, j < resolvedThreadCount env b ∧ env.spawn j = Except.error e)
    ∧ ∀ p, (ThreadPoolBuilder.finish env b).1 ≠ Except.ok p := by
  have htc : resolvedThreadCount env b ≠ 0 := by
    obtain ⟨j, hj, _⟩ := hfail
    omega
  have hfail0 : ∃ j, j < resolvedThreadCount env b ∧ ∃ e, env.spawn (0 + j) = Except.error e := by
    simpa using hfail
  obtain ⟨e, herr, j, hj, hspj⟩ :=
    spawnLoop_error_of_fail env.spawn (resolvedThreadCount env b) 0 hfail0
  have hfin : (ThreadPoolBuilder.finish env b).1 = Except.error (Error.Io e) := by
    simp only [ThreadPoolBuilder.finish, if_neg htc]
    cases hrec : spawnLoop env.spawn 0 (resolvedThreadCount env b) with
    | mk res k =>
      cases res with
      | ok hs =>
        rw [hrec] at herr
        cases herr
      | error e2 =>
        rw [hrec] at herr
        cases herr
        rfl
  refine ⟨by rw [hfin]; rfl, ⟨e, hfin, j, hj, by simpa using hspj⟩, ?_⟩
  intro p hp
  rw [hfin] at hp
  cases hp

/-- Witness for `finish_all_or_nothing`: with two workers to spawn and the
first spawn failing, construction does not yield a pool but an `Io` error. -/
theorem finish_all_or_nothing_witness :
    isIoError (ThreadPoolBuilder.finish
      ⟨none, fun i => if i = 0 then Except.error 13 else Except.ok i⟩
      (ThreadPoolBuilder.with_thread_count ThreadPoolBuilder.default 2)).1 = true :=
  (finish_all_or_nothing
    ⟨none, fun i => if i = 0 then Except.error 13 else Except.ok i⟩
    (ThreadPoolBuilder.with_thread_count ThreadPoolBuilder.default 2)
    ⟨0, by decide, 13, rfl⟩).1

/-- Claim C9: the resolved thread count equals the explicitly configured
value when one is set, else the detected available concurrency when
detection succeeds, else the fixed default `8`; and whenever construction
succeeds, the pool's `thread_count` observer equals that resolved count. -/
theorem thread_count_resolution (env : Env) (b : ThreadPoolBuilder) :
    resolvedThreadCount env b =
      (match b.thread_count, env.available_concurrency with
        | some n, _ => n
        | none, some m => m
        | none, none => 8)
    ∧ ∀ p, (ThreadPoolBuilder.finish env b).1 = Except.ok p →
        p.thread_count = resolvedThreadCount env b := by
  constructor
  · cases hb : b.thread_count with
    | some n => simp [resolvedThreadCount, hb, Option.or]
    | none =>
      cases ha : env.available_concurrency with
      | some m => simp [resolvedThreadCount, hb, ha, Option.or]
      | none => simp [resolvedThreadCount, hb, ha, Option.or, DEFAULT_THREAD_COUNT]
  · intro p hp
    exact finish_ok_thread_count env b p hp

/-- Witness for `thread_count_resolution`: a pool built with no configured
count and detected concurrency of `3` reports three threads. -/
theorem thread_count_resolution_witness :
    ThreadPool.thread_count ⟨[0, 1, 2]⟩ =
      resolvedThreadCount ⟨some 3, fun i => Except.ok i⟩ ThreadPoolBuilder.default :=
  (thread_count_resolution ⟨some 3, fun i => Except.ok i⟩ ThreadPoolBuilder.default).2
    ⟨[0, 1, 2]⟩ rfl

end Lagoon
